import Mathlib

/-!
Verification of the spec of a lock-granularity micro-benchmark (`src/main.cpp`)
against a shallow embedding of its sequential semantics.

Modelling conventions:
* C++ `int` is embedded as unbounded `Int` (no arithmetic is performed on field
  indices or stored values, so two's-complement wraparound never arises in the
  embedded code paths) and `size_t` as `Nat`.
* Mutex acquisition/release has no effect on the data fields; the sequential
  data semantics of each `SafeStruct` method is embedded directly.
* File I/O is external: the parser is embedded on the list of lines that
  `std::getline` yields.
-/

namespace ProgProject4

/-- The two-field shared record of `src/main.cpp` (`class SafeStruct`):
`std::array<int, 2> data{0, 0}` plus one mutex per field.  The mutexes guard
the fields but never change them, so the embedded state is the two fields. -/
structure SafeStruct where
  data0 : Int
  data1 : Int
deriving DecidableEq, Repr

/-- A freshly constructed `SafeStruct`: `data{0, 0}`. -/
def SafeStruct.init : SafeStruct := ⟨0, 0⟩

/-- `SafeStruct::set(int field, int value)`: if `field < 0 || field >= 2`,
return with no effect; otherwise lock the field's mutex and store `value`
into `data[field]`. -/
def SafeStruct.set (s : SafeStruct) (field value : Int) : SafeStruct :=
  if field < 0 ∨ 2 ≤ field then s
  else if field = 0 then ⟨value, s.data1⟩
  else ⟨s.data0, value⟩

/-- `SafeStruct::get(int field) const`: if `field < 0 || field >= 2`,
return 0; otherwise lock the field's mutex and return `data[field]`. -/
def SafeStruct.get (s : SafeStruct) (field : Int) : Int :=
  if field < 0 ∨ 2 ≤ field then 0
  else if field = 0 then s.data0
  else s.data1

/-- `SafeStruct::get` in state-passing form: the method is `const`, its body
only reads `data[field]` under the field's lock and stores nothing, so the
record returned alongside the value is the record the call started from. -/
def SafeStruct.getS (s : SafeStruct) (field : Int) : Int × SafeStruct :=
  (s.get field, s)

/-- The reversed decimal digit list of `n` (least significant digit first),
as produced by the standard `%d` formatting loop: repeatedly take `n % 10`
and continue with `n / 10`. -/
def natDecRev : Nat → List Char
  | 0 => []
  | n + 1 => Nat.digitChar ((n + 1) % 10) :: natDecRev ((n + 1) / 10)
decreasing_by exact Nat.div_lt_self (Nat.succ_pos n) (by norm_num)

/-- `std::to_string` on a non-negative magnitude: `"0"` for zero, otherwise
the decimal digits most significant first. -/
def cppToStringNat (n : Nat) : String :=
  if n = 0 then "0" else String.mk (natDecRev n).reverse

/-- `std::to_string(int)` (`%d` formatting): a leading `'-'` for negative
values, then the decimal digits of the magnitude. -/
def cppToStringInt (n : Int) : String :=
  if n < 0 then "-" ++ cppToStringNat n.natAbs else cppToStringNat n.natAbs

/-- `SafeStruct::operator std::string() const`: lock both field mutexes
(via `std::lock` on two deferred `unique_lock`s), then return
`std::to_string(data[0]) + " " + std::to_string(data[1])`. -/
def SafeStruct.snapshot (s : SafeStruct) : String :=
  cppToStringInt s.data0 ++ " " ++ cppToStringInt s.data1

/-- The operation tags of `enum class Op`. -/
inductive Op
  | READ
  | WRITE
  | STR
deriving DecidableEq, Repr

/-- `struct Action { Op op; int field = -1; int value = 0; }`. -/
structure Action where
  op : Op
  field : Int
  value : Int
deriving DecidableEq, Repr

/-- One iteration of the loop body of `execute`: `READ` calls `get` on the
action's field and discards the value, `WRITE` calls `set`, `STR` converts
the record to a string (the snapshot) and discards it. -/
def executeStep (s : SafeStruct) (a : Action) : SafeStruct :=
  match a.op with
  | Op.READ => (s.getS a.field).2
  | Op.WRITE => s.set a.field a.value
  | Op.STR => s

/-- `execute(const std::vector<Action>&, SafeStruct&)`, the Trace Player:
replays the actions strictly in order against the record. -/
def execute (actions : List Action) (s : SafeStruct) : SafeStruct :=
  actions.foldl executeStep s

/-- `std::isspace` in the default locale: space, tab, newline, vertical tab,
form feed, carriage return. -/
def cppIsSpace (c : Char) : Bool :=
  c == ' ' || c == '\t' || c == '\n' || c == '\x0b' || c == '\x0c' || c == '\r'

/-- `operator>>(istream, std::string)` on the rest of a line: skip
whitespace, then extract the longest run of non-whitespace characters; if
nothing remains, the extraction fails (`none`; the target string is emptied,
so the command matches no keyword and the line is skipped either way). -/
def extractToken (cs : List Char) : Option (String × List Char) :=
  let rest := cs.dropWhile cppIsSpace
  if rest.isEmpty then none
  else some (String.mk (rest.takeWhile (fun c => !cppIsSpace c)),
             rest.dropWhile (fun c => !cppIsSpace c))

/-- The numeric value of a run of decimal digit characters. -/
def digitsVal (ds : List Char) : Nat :=
  ds.foldl (fun acc c => 10 * acc + (c.toNat - 48)) 0

/-- Digit-run consumption for `operator>>(istream, int)`: at least one
decimal digit is required, and the longest digit run is consumed.  C++ `int`
overflow clamping is not modelled; the embedded value is unbounded. -/
def extractDigits (cs : List Char) : Option (Nat × List Char) :=
  let ds := cs.takeWhile Char.isDigit
  if ds.isEmpty then none
  else some (digitsVal ds, cs.dropWhile Char.isDigit)

/-- `operator>>(istream, int)` with the default `dec` base: skip whitespace,
an optional `+` or `-` sign, then at least one decimal digit.  `none` is a
failed extraction: since C++11 the target is then set to 0 and the stream
enters a failed state, so any later extraction on the same line fails too. -/
def extractInt (cs : List Char) : Option (Int × List Char) :=
  match cs.dropWhile cppIsSpace with
  | '-' :: rest => (extractDigits rest).map (fun p => (-(p.1 : Int), p.2))
  | '+' :: rest => (extractDigits rest).map (fun p => ((p.1 : Int), p.2))
  | rest => (extractDigits rest).map (fun p => ((p.1 : Int), p.2))

/-- The keyword dispatch of the `parse_file` loop body, after the command
token has been extracted: on `read`, extract `f` and push `{Op::READ, f}`;
on `write`, extract `f` and `v` and push `{Op::WRITE, f, v}`; on `string`,
push `{Op::STR}`; on any other command push nothing.  A failed int
extraction stores 0 into its target and the action is pushed regardless; in
the `write` case with a failed first extraction the C++ `v` is an
uninitialized int that the failed second extraction leaves untouched
(indeterminate in C++), modelled here as 0. -/
def parseCmd (cmd : String) (rest : List Char) : List Action :=
  if cmd = "read" then
    match extractInt rest with
    | some (f, _) => [⟨Op.READ, f, 0⟩]
    | none => [⟨Op.READ, 0, 0⟩]
  else if cmd = "write" then
    match extractInt rest with
    | some (f, rest2) =>
      match extractInt rest2 with
      | some (v, _) => [⟨Op.WRITE, f, v⟩]
      | none => [⟨Op.WRITE, f, 0⟩]
    | none => [⟨Op.WRITE, 0, 0⟩]
  else if cmd = "string" then [⟨Op.STR, -1, 0⟩]
  else []

/-- The `parse_file` loop body for one line of the trace file. -/
def parseLine (line : String) : List Action :=
  match extractToken line.data with
  | none => []
  | some (cmd, rest) => parseCmd cmd rest

/-- `parse_file`, applied to the lines `std::getline` yields (file I/O is
external; a failed open yields no lines and hence an empty workload): the
actions contributed by each line, in order. -/
def parse_file (lines : List String) : List Action :=
  lines.foldl (fun acc line => acc ++ parseLine line) []

/-- The first whitespace-delimited token of a line, if any. -/
def firstTok (line : String) : Option String :=
  (extractToken line.data).map (fun p => p.1)

/-- Spec side, from the claim's words: the whitespace-separated tokens of a
line. -/
def tokensOf (line : String) : List String :=
  ((line.data.foldr
      (fun c acc =>
        if cppIsSpace c then [] :: acc
        else
          match acc with
          | [] => [[c]]
          | t :: ts => (c :: t) :: ts)
      []).filter (fun t => !t.isEmpty)).map (fun t => String.mk t)

/-- Spec side: whether a token is a decimal integer literal, an optional
sign followed by at least one decimal digit. -/
def isIntLit (s : String) : Bool :=
  match s.data with
  | [] => false
  | '-' :: ds => !ds.isEmpty && ds.all Char.isDigit
  | '+' :: ds => !ds.isEmpty && ds.all Char.isDigit
  | ds => ds.all Char.isDigit

/-- Spec side: whether a line is of exactly one of the three forms
`read <field>`, `write <field> <value>`, `string`. -/
def specThreeForms (line : String) : Bool :=
  match tokensOf line with
  | [c] => c == "string"
  | [c, f] => c == "read" && isIntLit f
  | [c, f, v] => c == "write" && isIntLit f && isIntLit v
  | _ => false

/-- The size of piece `i` (0-based) when `generate_all_files` splits
`num_ops` operations into `t` pieces:
`base + (i < rem ? 1 : 0)` with `base = num_ops / t` and `rem = num_ops % t`. -/
def pieceSize (num_ops t i : Nat) : Nat :=
  num_ops / t + (if i < num_ops % t then 1 else 0)

/-- Helper: summing `base` plus the indicator of `i < r` over `i < t`. -/
theorem sum_base_indicator (base r t : Nat) :
    (∑ i in Finset.range t, (base + if i < r then 1 else 0)) = t * base + min r t := by
  induction t with
  | zero => simp
  | succ t ih =>
    rw [Finset.sum_range_succ, ih, Nat.succ_mul]
    by_cases h : t < r
    · rw [if_pos h, Nat.min_eq_right (Nat.le_of_lt h), Nat.min_eq_right h]
      omega
    · rw [if_neg h, Nat.min_eq_left (show r ≤ t by omega),
          Nat.min_eq_left (show r ≤ t + 1 by omega)]
      omega

/-- Claim C1: splitting `num_ops` operations into `t ≥ 1` pieces gives the
first `num_ops % t` pieces size `num_ops / t + 1`, every remaining piece
size `num_ops / t`, and the `t` piece sizes sum exactly to `num_ops`. -/
theorem partition_sizes_correct (num_ops t : Nat) (ht : 1 ≤ t) :
    (∀ i, i < num_ops % t → pieceSize num_ops t i = num_ops / t + 1) ∧
    (∀ i, num_ops % t ≤ i → i < t → pieceSize num_ops t i = num_ops / t) ∧
    (∑ i in Finset.range t, pieceSize num_ops t i) = num_ops := by
  have hrem : num_ops % t < t := Nat.mod_lt _ (by omega)
  refine ⟨fun i hi => ?_, fun i hi _ => ?_, ?_⟩
  · rw [pieceSize, if_pos hi]
  · rw [pieceSize, if_neg (by omega), Nat.add_zero]
  · have hsum := sum_base_indicator (num_ops / t) (num_ops % t) t
    simp only [pieceSize]
    rw [hsum, Nat.min_eq_left (Nat.le_of_lt hrem)]
    exact Nat.div_add_mod num_ops t

/-- Witness for C1 at `num_ops = 7`, `t = 3`: sizes are 3, 2, 2. -/
theorem partition_sizes_correct_witness :
    1 ≤ 3 ∧
    ((∀ i, i < 7 % 3 → pieceSize 7 3 i = 7 / 3 + 1) ∧
     (∀ i, 7 % 3 ≤ i → i < 3 → pieceSize 7 3 i = 7 / 3) ∧
     (∑ i in Finset.range 3, pieceSize 7 3 i) = 7) :=
  ⟨by decide, partition_sizes_correct 7 3 (by decide)⟩

/-- Claim C2: for every field outside `{0, 1}` and every value, `set` returns
with no effect: both fields are unchanged (and, the embedded function being
total, no error is raised). -/
theorem set_invalid_no_effect (s : SafeStruct) (field value : Int)
    (h0 : field ≠ 0) (h1 : field ≠ 1) :
    (s.set field value).data0 = s.data0 ∧ (s.set field value).data1 = s.data1 ∧
    s.set field value = s := by
  have : field < 0 ∨ 2 ≤ field := by omega
  rw [SafeStruct.set, if_pos this]
  exact ⟨rfl, rfl, rfl⟩

/-- Witness for C2 at state `⟨3, 4⟩`, field 2, value 9. -/
theorem set_invalid_no_effect_witness :
    ((2 : Int) ≠ 0 ∧ (2 : Int) ≠ 1) ∧
    ((SafeStruct.set ⟨3, 4⟩ 2 9).data0 = (3 : Int) ∧
     (SafeStruct.set ⟨3, 4⟩ 2 9).data1 = (4 : Int) ∧
     SafeStruct.set ⟨3, 4⟩ 2 9 = ⟨3, 4⟩) :=
  ⟨⟨by decide, by decide⟩, set_invalid_no_effect ⟨3, 4⟩ 2 9 (by decide) (by decide)⟩

/-- Claim C3: for every field outside `{0, 1}` and every state, `get`
returns 0. -/
theorem get_invalid_returns_zero (s : SafeStruct) (field : Int)
    (h0 : field ≠ 0) (h1 : field ≠ 1) :
    s.get field = 0 := by
  have : field < 0 ∨ 2 ≤ field := by omega
  rw [SafeStruct.get, if_pos this]

/-- Witness for C3 at state `⟨5, 6⟩`, field -3. -/
theorem get_invalid_returns_zero_witness :
    ((-3 : Int) ≠ 0 ∧ (-3 : Int) ≠ 1) ∧ SafeStruct.get ⟨5, 6⟩ (-3) = 0 :=
  ⟨⟨by decide, by decide⟩, get_invalid_returns_zero ⟨5, 6⟩ (-3) (by decide) (by decide)⟩

/-- Claim C4: executing, with a single worker on a fresh record, the workload
`Write(0, 7)` then `Read(0)` leaves field 0 with observable value 7. -/
theorem single_worker_write_read :
    (execute [⟨Op.WRITE, 0, 7⟩, ⟨Op.READ, 0, 0⟩] SafeStruct.init).get 0 = 7 := by
  decide

/-- Claim C6: on every state, the Trace Player run on an empty workload
returns with no observable effect: both fields are unchanged. -/
theorem execute_empty_no_effect (s : SafeStruct) :
    execute [] s = s ∧
    (execute [] s).data0 = s.data0 ∧ (execute [] s).data1 = s.data1 :=
  ⟨rfl, rfl, rfl⟩

/-- Claim C10: for every field argument, valid or invalid, and every state,
`get` leaves both fields unchanged: the record after the call is the record
before it. -/
theorem get_preserves_fields (s : SafeStruct) (field : Int) :
    (s.getS field).2.data0 = s.data0 ∧ (s.getS field).2.data1 = s.data1 :=
  ⟨rfl, rfl⟩

/-- Helper: the keyword dispatch pushes at most one action, and pushes one
exactly when the command token is `read`, `write` or `string`. -/
theorem parseCmd_spec (cmd : String) (rest : List Char) :
    (parseCmd cmd rest).length ≤ 1 ∧
    (parseCmd cmd rest ≠ [] ↔ cmd = "read" ∨ cmd = "write" ∨ cmd = "string") := by
  rw [parseCmd]
  by_cases h1 : cmd = "read"
  · subst h1
    rcases extractInt rest with _ | ⟨f, r2⟩ <;> simp
  · by_cases h2 : cmd = "write"
    · subst h2
      rcases hx : extractInt rest with _ | ⟨f, r2⟩
      · simp [hx]
      · rcases hy : extractInt r2 with _ | ⟨v, r3⟩ <;> simp [hx, hy]
    · by_cases h3 : cmd = "string"
      · subst h3
        simp
      · simp [h1, h2, h3]

/-- Counterexample to claim C5 as stated: the line `read x` matches none of
the three forms, yet the parser does not skip it — a failed integer
extraction stores 0 into the field and the action is pushed regardless, so
the line contributes the operation `Read(0)` to the workload. -/
theorem parse_malformed_line_not_skipped :
    specThreeForms "read x" = false ∧
    parse_file ["read x"] = [⟨Op.READ, 0, 0⟩] ∧
    parse_file ["read x"] ≠ [] := by
  refine ⟨?_, ?_, ?_⟩ <;> decide

/-- Claim C5 as amended: the parser contributes exactly one operation for
every line whose first whitespace-delimited token is `read`, `write` or
`string` — a well-formed line yields the corresponding operation, and a
malformed or missing integer argument on a `read`/`write` line is extracted
as 0 rather than causing the line to be skipped — and every other line is
silently skipped, contributing no operation and (the embedded parser being
total) raising no error. -/
theorem parse_line_skip_iff (line : String) :
    (parseLine line).length ≤ 1 ∧
    (parseLine line ≠ [] ↔
      firstTok line = some "read" ∨ firstTok line = some "write" ∨
      firstTok line = some "string") := by
  rw [parseLine, firstTok]
  rcases extractToken line.data with _ | ⟨cmd, rest⟩
  · simp
  · have h := parseCmd_spec cmd rest
    simpa using h

/-- Spec side: the decimal-representation string of a natural magnitude,
through Mathlib's base-10 digit expansion `Nat.digits`, most significant
digit first, with `"0"` for zero. -/
def decimalDigitsStr (m : Nat) : String :=
  if m = 0 then "0"
  else String.mk (((Nat.digits 10 m).map Nat.digitChar).reverse)

/-- Spec side: the decimal representation of an integer, a leading `-` for
negative values then the decimal representation of the magnitude. -/
def decimalRepr (n : Int) : String :=
  if n < 0 then "-" ++ decimalDigitsStr n.natAbs else decimalDigitsStr n.natAbs

/-- The `%d` digit loop agrees with Mathlib's base-10 digit expansion. -/
theorem natDecRev_eq_digits (n : Nat) :
    natDecRev n = (Nat.digits 10 n).map Nat.digitChar := by
  induction n using Nat.strong_induction_on with
  | _ n ih =>
    match n with
    | 0 => simp [natDecRev]
    | m + 1 =>
      rw [natDecRev, Nat.digits_def' (by norm_num : (1 : ℕ) < 10) (Nat.succ_pos m),
          List.map_cons, ih ((m + 1) / 10) (Nat.div_lt_self (Nat.succ_pos m) (by norm_num))]

/-- `std::to_string` of a magnitude is its decimal representation. -/
theorem cppToStringNat_eq (m : Nat) : cppToStringNat m = decimalDigitsStr m := by
  rw [cppToStringNat, decimalDigitsStr, natDecRev_eq_digits]

/-- `std::to_string(int)` is the decimal representation. -/
theorem cppToStringInt_eq (n : Int) : cppToStringInt n = decimalRepr n := by
  rw [cppToStringInt, decimalRepr, cppToStringNat_eq]

/-- Claim C9: in every state, the snapshot operation returns the decimal
representation of field 0, a single space, and the decimal representation of
field 1, in that order. -/
theorem snapshot_decimal_pair (s : SafeStruct) :
    s.snapshot = decimalRepr s.data0 ++ " " ++ decimalRepr s.data1 := by
  rw [SafeStruct.snapshot, cppToStringInt_eq, cppToStringInt_eq]

end ProgProject4
